import Mathlib

/-!
Shallow embedding of the scoring, labelling and history logic of
`src/app.py` (Defence Readiness Radar).

Python floats are modelled as rationals (`ℚ`): every numeric value that
the program manipulates on the paths verified here (sums of small
integers, division by small counts, two-decimal rounding) is a dyadic or
small-denominator rational on which binary64 arithmetic and the rational
model agree exactly at the checked points; comparisons against the
thresholds 1.5, 2.5, 3.5, 4.5 (all exactly representable) are likewise
exact.  Python's `round(x, 2)` is round-half-to-even to two decimals,
modelled by `rhe`/`round2` below.  Fallible operations (division by zero
on an empty question list) return `Option`.
-/

namespace DefenseRadar

/-- Round-half-to-even of a rational to an integer, the tie-breaking rule
of Python's built-in `round`. -/
def rhe (x : ℚ) : ℤ :=
  if x - ⌊x⌋ < 1/2 then ⌊x⌋
  else if 1/2 < x - ⌊x⌋ then ⌊x⌋ + 1
  else if ⌊x⌋ % 2 = 0 then ⌊x⌋ else ⌊x⌋ + 1

/-- Python's `round(x, 2)`: round half to even at two decimal places. -/
def round2 (x : ℚ) : ℚ := (rhe (100 * x) : ℚ) / 100

/-- `interpret_score` from src/app.py lines 134-143: maps a score to one
of five qualitative labels, branching on 1.5 / 2.5 / 3.5 / 4.5. -/
def interpret_score (score : ℚ) : String :=
  if score ≤ 3/2 then "Critical"
  else if score ≤ 5/2 then "Weak"
  else if score ≤ 7/2 then "Moderate"
  else if score ≤ 9/2 then "Good"
  else "Very strong"

/-- `score_tag_class` from src/app.py lines 146-155: maps a score to a
CSS tag class, branching on the same thresholds. -/
def score_tag_class (score : ℚ) : String :=
  if score ≤ 3/2 then "tag-critical"
  else if score ≤ 5/2 then "tag-weak"
  else if score ≤ 7/2 then "tag-moderate"
  else if score ≤ 9/2 then "tag-good"
  else "tag-strong"

/-- The per-dimension average of src/app.py lines 266-281:
`avg = round(total / len(questions), 2)` where `total` is the sum of the
slider responses.  On an empty question list the Python division raises
`ZeroDivisionError`, modelled as `none`; no range validation is
performed. -/
def computeDimensionScore (rs : List ℤ) : Option ℚ :=
  if rs.isEmpty then none
  else some (round2 ((rs.sum : ℚ) / (rs.length : ℚ)))

/-- The overall average of src/app.py line 291:
`overall = round(sum(dimension_scores.values()) / len(dimension_scores), 2)`.
Empty input (division by zero) is modelled as `none`. -/
def computeOverallScore (scores : List ℚ) : Option ℚ :=
  if scores.isEmpty then none
  else some (round2 (scores.sum / scores.length))

/-- Modelled from the spec: the Scorer contract
`computeDimensionScore(responses) -> float` that "fails with InvalidInput
if the sequence is empty or any value lies outside [1,5]".  This
validating variant is absent from src/app.py; it is stated here only to
be compared with the code's `computeDimensionScore`. -/
def computeDimensionScore_specContract (rs : List ℤ) : Except String ℚ :=
  if rs = [] ∨ ∃ x ∈ rs, x < 1 ∨ 5 < x then Except.error "InvalidInput"
  else Except.ok (round2 ((rs.sum : ℚ) / (rs.length : ℚ)))

/-- Modelled from the spec: the Scorer contract
`interpretScore(score) -> QualitativeLabel` that "fails with InvalidInput
outside [1,5]".  This fail-fast variant is absent from src/app.py; it is
stated here only to be compared with the code's `interpret_score`. -/
def interpretScore_specContract (score : ℚ) : Except String String :=
  if score < 1 ∨ 5 < score then Except.error "InvalidInput"
  else Except.ok (interpret_score score)

/-- One persisted assessment, the record shape inserted by
`save_assessment` (src/app.py lines 348-353): company id, overall score,
per-dimension scores, creation timestamp.  The ISO-8601 UTC timestamp
string is modelled as a natural number ordered the same way the strings
compare lexicographically. -/
structure AssessmentRecord where
  company_id : String
  overall : ℚ
  scores : List (String × ℚ)
  created_at : ℕ
deriving DecidableEq

/-- `load_history` from src/app.py lines 357-369: returns `[]` when
persistence is disabled or the company is the demo sentinel; otherwise
queries the store for the company's records ordered by ascending
`created_at`.  The external Supabase query
(`.eq("company_id", ...).order("created_at", desc=False)`) is modelled
from the spec's wire contract as filter-then-sort over the store's
contents; `res.data or []` yields `[]` when no rows match. -/
def load_history (persistence_enabled : Bool) (company_id : String)
    (store : List AssessmentRecord) : List AssessmentRecord :=
  if !persistence_enabled || company_id == "DEMO" then []
  else
    List.insertionSort (fun a b => a.created_at ≤ b.created_at)
      (store.filter (fun r => r.company_id == company_id))

/-- The in-memory UI state that `save_assessment` can observe: the
current dimension scores, the overall score, and the persisted store. -/
structure AppState where
  dimension_scores : List (String × ℚ)
  overall : ℚ
  store : List AssessmentRecord
deriving DecidableEq

/-- The store-level outcome of an insert: the external Supabase call
either persists the record or raises a transient unavailability error. -/
inductive StoreError where
  | unavailable
deriving DecidableEq

/-- `save_assessment` from src/app.py lines 343-354: a no-op when
persistence is disabled or in demo mode; otherwise builds the record
from its score arguments and inserts it.  `store_available` models
whether the external insert succeeds (`none` result) or raises
`StoreError.unavailable` (modelled from the spec's `StoreUnavailable`).
In every branch the function only reads `dimension_scores` and
`overall`; it never writes them. -/
def save_assessment (persistence_enabled : Bool) (company_id : String)
    (now : ℕ) (store_available : Bool) (st : AppState) :
    AppState × Option StoreError :=
  if !persistence_enabled || company_id == "DEMO" then (st, none)
  else if store_available then
    ({ st with
        store := st.store ++
          [⟨company_id, st.overall, st.dimension_scores, now⟩] },
      none)
  else (st, some StoreError.unavailable)

/-- The history rendering branch of src/app.py lines 392-434, reduced to
the user-visible message it emits: when persistence is enabled and the
company is not the demo sentinel, it loads the history and shows either
the no-history notice or the evolution chart; when Supabase and auth are
both configured but the session is the demo sentinel it shows the
demo notice; otherwise the history section is absent (empty string). -/
def renderHistory (auth_enabled supabase_enabled : Bool)
    (company_id : String) (store : List AssessmentRecord) : String :=
  let persistence_enabled := auth_enabled && supabase_enabled
  if persistence_enabled && !(company_id == "DEMO") then
    if load_history persistence_enabled company_id store = [] then
      "No previous assessments found for this company."
    else "evolution-chart"
  else if auth_enabled && supabase_enabled then
    "History is only available for authenticated companies. Demo sessions do not create or show historical data."
  else ""

theorem rhe_ge_floor (x : ℚ) : ⌊x⌋ ≤ rhe x := by
  unfold rhe
  split
  · exact le_refl _
  · split
    · omega
    · split <;> omega

theorem rhe_le_ceil (x : ℚ) : rhe x ≤ ⌈x⌉ := by
  have hfc : ⌊x⌋ ≤ ⌈x⌉ := Int.floor_le_ceil x
  have hkey : ¬(x - ⌊x⌋ < 1/2) → ⌊x⌋ + 1 ≤ ⌈x⌉ := by
    intro h1
    have hr : (1:ℚ)/2 ≤ x - ⌊x⌋ := le_of_not_lt h1
    have hlt : (⌊x⌋ : ℚ) < x := by linarith
    have hle : x ≤ (⌈x⌉ : ℚ) := Int.le_ceil x
    have hq : (⌊x⌋ : ℚ) < (⌈x⌉ : ℚ) := lt_of_lt_of_le hlt hle
    have hz : ⌊x⌋ < ⌈x⌉ := by exact_mod_cast hq
    omega
  unfold rhe
  split
  · exact hfc
  · rename_i h1
    split
    · exact hkey h1
    · split
      · exact hfc
      · exact hkey h1

theorem round2_mem (x : ℚ) (h1 : 1 ≤ x) (h5 : x ≤ 5) :
    1 ≤ round2 x ∧ round2 x ≤ 5 := by
  have hfl : (100 : ℤ) ≤ ⌊(100 : ℚ) * x⌋ := by
    rw [Int.le_floor]
    push_cast
    linarith
  have hcl : ⌈(100 : ℚ) * x⌉ ≤ 500 := by
    rw [Int.ceil_le]
    push_cast
    linarith
  have hl : (100 : ℤ) ≤ rhe (100 * x) := le_trans hfl (rhe_ge_floor _)
  have hr : rhe (100 * x) ≤ 500 := le_trans (rhe_le_ceil _) hcl
  have hlq : ((100 : ℤ) : ℚ) ≤ (rhe (100 * x) : ℚ) := by exact_mod_cast hl
  have hrq : (rhe (100 * x) : ℚ) ≤ ((500 : ℤ) : ℚ) := by exact_mod_cast hr
  constructor
  · unfold round2
    rw [le_div_iff₀ (by norm_num : (0:ℚ) < 100)]
    push_cast at hlq ⊢
    linarith
  · unfold round2
    rw [div_le_iff₀ (by norm_num : (0:ℚ) < 100)]
    push_cast at hrq ⊢
    linarith

theorem rhe_intCast (n : ℤ) : rhe (n : ℚ) = n := by
  unfold rhe
  rw [Int.floor_intCast, sub_self]
  norm_num

theorem round2_intCast (n : ℤ) : round2 (n : ℚ) = n := by
  unfold round2
  have h : (100 : ℚ) * n = ((100 * n : ℤ) : ℚ) := by push_cast; ring
  rw [h, rhe_intCast]
  push_cast
  field_simp

theorem length_le_sum_int (rs : List ℤ) (h : ∀ x ∈ rs, 1 ≤ x) :
    (rs.length : ℤ) ≤ rs.sum := by
  induction rs with
  | nil => simp
  | cons a t ih =>
    simp only [List.sum_cons, List.length_cons]
    have ha : 1 ≤ a := h a (by simp)
    have ht := ih (fun x hx => h x (by simp [hx]))
    push_cast
    linarith

theorem sum_le_five_length_int (rs : List ℤ) (h : ∀ x ∈ rs, x ≤ 5) :
    rs.sum ≤ 5 * rs.length := by
  induction rs with
  | nil => simp
  | cons a t ih =>
    simp only [List.sum_cons, List.length_cons]
    have ha : a ≤ 5 := h a (by simp)
    have ht := ih (fun x hx => h x (by simp [hx]))
    push_cast
    linarith

theorem length_le_sum_rat (l : List ℚ) (h : ∀ x ∈ l, 1 ≤ x) :
    (l.length : ℚ) ≤ l.sum := by
  induction l with
  | nil => simp
  | cons a t ih =>
    simp only [List.sum_cons, List.length_cons]
    have ha : 1 ≤ a := h a (by simp)
    have ht := ih (fun x hx => h x (by simp [hx]))
    push_cast
    linarith

theorem sum_le_five_length_rat (l : List ℚ) (h : ∀ x ∈ l, x ≤ 5) :
    l.sum ≤ 5 * l.length := by
  induction l with
  | nil => simp
  | cons a t ih =>
    simp only [List.sum_cons, List.length_cons]
    have ha : a ≤ 5 := h a (by simp)
    have ht := ih (fun x hx => h x (by simp [hx]))
    push_cast
    linarith

/-- Claim C1 (amended): in the concrete scenario, dimension "Product"
with responses [4,4,3,5] scores 4.00 labelled "Good" and dimension
"Security" with responses [1,1,2,1] scores 1.25 labelled "Critical", as
claimed; but the two-dimension overall is round-half-to-even of 2.625,
which is 2.62 (not the claimed 2.63), still labelled "Moderate". -/
theorem c1_scenario_amended :
    computeDimensionScore [4, 4, 3, 5] = some 4 ∧
    interpret_score 4 = "Good" ∧
    computeDimensionScore [1, 1, 2, 1] = some (5/4) ∧
    interpret_score (5/4) = "Critical" ∧
    computeOverallScore [4, 5/4] = some (131/50) ∧
    interpret_score (131/50) = "Moderate" := by
  refine ⟨?_, ?_, ?_, ?_, ?_, ?_⟩ <;>
    norm_num [computeDimensionScore, computeOverallScore, round2, rhe,
      interpret_score]

/-- Claim C1 counterexample: the code's two-dimension overall for
dimension scores 4.00 and 1.25 is 2.62, not 2.63 as the claim states,
because Python's round-half-to-even sends 2.625 to 2.62. -/
theorem c1_counterexample :
    computeOverallScore [4, 5/4] = some (131/50) ∧
    (131/50 : ℚ) ≠ 263/100 := by
  constructor
  · norm_num [computeOverallScore, round2, rhe]
  · norm_num

/-- Claim C2: `interpret_score` is exact at every cut point (1.5 is
"Critical", 1.51 and 2.5 are "Weak", 3.5 is "Moderate", 4.5 is "Good",
4.51 and 5.0 are "Very strong"), and on [1,5] the five bands are an
exhaustive and disjoint partition: each label is returned exactly on its
band. -/
theorem c2_band_partition :
    (interpret_score (3/2) = "Critical" ∧
     interpret_score (151/100) = "Weak" ∧
     interpret_score (5/2) = "Weak" ∧
     interpret_score (7/2) = "Moderate" ∧
     interpret_score (9/2) = "Good" ∧
     interpret_score (451/100) = "Very strong" ∧
     interpret_score 5 = "Very strong") ∧
    ∀ s : ℚ, 1 ≤ s → s ≤ 5 →
      ((interpret_score s = "Critical" ↔ s ≤ 3/2) ∧
       (interpret_score s = "Weak" ↔ 3/2 < s ∧ s ≤ 5/2) ∧
       (interpret_score s = "Moderate" ↔ 5/2 < s ∧ s ≤ 7/2) ∧
       (interpret_score s = "Good" ↔ 7/2 < s ∧ s ≤ 9/2) ∧
       (interpret_score s = "Very strong" ↔ 9/2 < s)) := by
  constructor
  · refine ⟨?_, ?_, ?_, ?_, ?_, ?_, ?_⟩ <;> norm_num [interpret_score]
  · intro s h1 h5
    unfold interpret_score
    split_ifs with ha hb hc hd <;>
      refine ⟨?_, ?_, ?_, ?_, ?_⟩ <;>
        simp_all <;> first | linarith | (intro h; linarith)

/-- Witness for C2 at the concrete score 2. -/
theorem c2_witness : interpret_score 2 = "Weak" :=
  ((c2_band_partition.2 2 (by norm_num) (by norm_num)).2.1).mpr
    (by norm_num)

/-- Claim C5 counterexample: on the out-of-range input [0] the code's
average computation succeeds and returns 0.0, whereas the claimed
contract (the spec-modelled validating variant) rejects it with
InvalidInput; the code performs no range validation. -/
theorem c5_counterexample :
    computeDimensionScore [0] = some 0 ∧
    computeDimensionScore_specContract [0] = Except.error "InvalidInput" := by
  constructor
  · norm_num [computeDimensionScore, round2, rhe]
  · rfl

/-- Claim C5 (amended): the code's per-dimension average fails only on
the empty sequence (a ZeroDivisionError, modelled as `none`, not an
InvalidInput error) and succeeds on every non-empty sequence — including
sequences with values outside [1,5] — returning the rounded mean. -/
theorem c5_no_validation : ∀ rs : List ℤ,
    (computeDimensionScore rs = none ↔ rs = []) ∧
    (rs ≠ [] →
      computeDimensionScore rs =
        some (round2 ((rs.sum : ℚ) / (rs.length : ℚ)))) := by
  intro rs
  cases rs with
  | nil => simp [computeDimensionScore]
  | cons a t => simp [computeDimensionScore]

/-- Witness for C5 at the out-of-range input [7]: the code succeeds. -/
theorem c5_witness : computeDimensionScore [7] = some 7 := by
  have h := (c5_no_validation [7]).2 (by simp)
  rw [h]
  norm_num [round2, rhe]

/-- Claim C6 counterexample: `interpret_score` does not fail outside
[1,5]: it returns "Critical" at 0 and "Very strong" at 6, whereas the
claimed contract (the spec-modelled fail-fast variant) rejects both with
InvalidInput. -/
theorem c6_counterexample :
    interpret_score 0 = "Critical" ∧
    interpret_score 6 = "Very strong" ∧
    interpretScore_specContract 0 = Except.error "InvalidInput" ∧
    interpretScore_specContract 6 = Except.error "InvalidInput" := by
  refine ⟨?_, ?_, ?_, ?_⟩ <;>
    norm_num [interpret_score, interpretScore_specContract]

/-- Claim C6 (amended): `interpret_score` is total over all scores and
never fails: it always returns one of the five labels, and out-of-range
scores receive the label of the nearest in-range score (the clamping
policy, applied consistently): scores below 1 are labelled like 1,
scores above 5 like 5. -/
theorem c6_total_clamping : ∀ s : ℚ,
    (interpret_score s = "Critical" ∨ interpret_score s = "Weak" ∨
     interpret_score s = "Moderate" ∨ interpret_score s = "Good" ∨
     interpret_score s = "Very strong") ∧
    (s < 1 → interpret_score s = interpret_score 1) ∧
    (5 < s → interpret_score s = interpret_score 5) := by
  intro s
  refine ⟨?_, ?_, ?_⟩
  · unfold interpret_score
    split_ifs <;> simp
  · intro h
    have h0 : interpret_score 1 = "Critical" := by norm_num [interpret_score]
    rw [h0]
    unfold interpret_score
    rw [if_pos (by linarith : s ≤ (3:ℚ)/2)]
  · intro h
    have h0 : interpret_score 5 = "Very strong" := by
      norm_num [interpret_score]
    rw [h0]
    unfold interpret_score
    rw [if_neg (by linarith : ¬s ≤ (3:ℚ)/2),
      if_neg (by linarith : ¬s ≤ (5:ℚ)/2),
      if_neg (by linarith : ¬s ≤ (7:ℚ)/2),
      if_neg (by linarith : ¬s ≤ (9:ℚ)/2)]

/-- Witness for C6 at the out-of-range score 1/2. -/
theorem c6_witness : interpret_score (1/2) = interpret_score 1 :=
  (c6_total_clamping (1/2)).2.1 (by norm_num)

/-- Claim C10: for every score, the CSS tag class of `score_tag_class`
corresponds exactly to the label of `interpret_score`; both are total
and branch on the identical thresholds 1.5, 2.5, 3.5, 4.5. -/
theorem c10_tag_matches_label : ∀ s : ℚ,
    (interpret_score s = "Critical" ↔ score_tag_class s = "tag-critical") ∧
    (interpret_score s = "Weak" ↔ score_tag_class s = "tag-weak") ∧
    (interpret_score s = "Moderate" ↔ score_tag_class s = "tag-moderate") ∧
    (interpret_score s = "Good" ↔ score_tag_class s = "tag-good") ∧
    (interpret_score s = "Very strong" ↔ score_tag_class s = "tag-strong") := by
  intro s
  unfold interpret_score score_tag_class
  split_ifs <;> refine ⟨?_, ?_, ?_, ?_, ?_⟩ <;> simp

/-- Witness for C10 at the concrete score 3. -/
theorem c10_witness : score_tag_class 3 = "tag-moderate" :=
  (c10_tag_matches_label 3).2.2.1.mp (by norm_num [interpret_score])

theorem round2_one : round2 1 = 1 := by norm_num [round2, rhe]

theorem round2_five : round2 5 = 5 := by norm_num [round2, rhe]

/-- Claim C3: for every non-empty sequence of integers in [1,5], the
per-dimension average succeeds and lies in [1.0, 5.0]; on all-1s it is
exactly 1.0 and on all-5s exactly 5.0. -/
theorem c3_dimension_range :
    (∀ rs : List ℤ, rs ≠ [] → (∀ x ∈ rs, 1 ≤ x ∧ x ≤ 5) →
      ∃ v, computeDimensionScore rs = some v ∧ 1 ≤ v ∧ v ≤ 5) ∧
    (∀ n : ℕ, 0 < n →
      computeDimensionScore (List.replicate n 1) = some 1 ∧
      computeDimensionScore (List.replicate n 5) = some 5) := by
  constructor
  · intro rs hne hb
    have hlen : 0 < rs.length := List.length_pos.mpr hne
    have hsum1 : (rs.length : ℤ) ≤ rs.sum :=
      length_le_sum_int rs (fun x hx => (hb x hx).1)
    have hsum5 : rs.sum ≤ 5 * rs.length :=
      sum_le_five_length_int rs (fun x hx => (hb x hx).2)
    have hlq : (0:ℚ) < (rs.length : ℚ) := by exact_mod_cast hlen
    have hm1 : 1 ≤ (rs.sum : ℚ) / (rs.length : ℚ) := by
      rw [le_div_iff₀ hlq]
      have hc : ((rs.length : ℤ) : ℚ) ≤ ((rs.sum : ℤ) : ℚ) := by
        exact_mod_cast hsum1
      push_cast at hc ⊢
      linarith
    have hm5 : (rs.sum : ℚ) / (rs.length : ℚ) ≤ 5 := by
      rw [div_le_iff₀ hlq]
      have hc : ((rs.sum : ℤ) : ℚ) ≤ ((5 * rs.length : ℤ) : ℚ) := by
        exact_mod_cast hsum5
      push_cast at hc ⊢
      linarith
    have hr := round2_mem _ hm1 hm5
    refine ⟨round2 ((rs.sum : ℚ) / (rs.length : ℚ)), ?_, hr.1, hr.2⟩
    unfold computeDimensionScore
    rw [if_neg (by simp [hne])]
  · intro n hn
    have hnq : ((n:ℚ)) ≠ 0 := by
      exact_mod_cast Nat.pos_iff_ne_zero.mp hn
    constructor
    · unfold computeDimensionScore
      rw [if_neg (by simp; omega)]
      have h1 : ((List.replicate n (1:ℤ)).sum : ℚ) /
          ((List.replicate n (1:ℤ)).length : ℚ) = 1 := by
        rw [List.sum_replicate, List.length_replicate, nsmul_eq_mul,
          mul_one]
        push_cast
        exact div_self hnq
      rw [h1, round2_one]
    · unfold computeDimensionScore
      rw [if_neg (by simp; omega)]
      have h5 : ((List.replicate n (5:ℤ)).sum : ℚ) /
          ((List.replicate n (5:ℤ)).length : ℚ) = 5 := by
        rw [List.sum_replicate, List.length_replicate, nsmul_eq_mul]
        push_cast
        rw [mul_comm, mul_div_assoc, div_self hnq, mul_one]
      rw [h5, round2_five]

/-- Witness for C3 at the concrete responses [4,4,3,5] and at three
all-1s responses. -/
theorem c3_witness :
    (∃ v, computeDimensionScore [4, 4, 3, 5] = some v ∧ 1 ≤ v ∧ v ≤ 5) ∧
    computeDimensionScore (List.replicate 3 1) = some 1 :=
  ⟨c3_dimension_range.1 [4, 4, 3, 5] (by simp) (by decide),
   (c3_dimension_range.2 3 (by norm_num)).1⟩

/-- Claim C4: for every non-empty family of dimension scores in [1,5],
the overall is the rounded mean of the dimension scores, lies in [1,5],
and depends only on the dimension scores (each dimension weighted
equally, independent of its question count); a 1-question dimension
scored 5 and a 10-question dimension scored 1 yield overall 3.0. -/
theorem c4_overall_mean :
    (∀ scores : List ℚ, scores ≠ [] → (∀ s ∈ scores, 1 ≤ s ∧ s ≤ 5) →
      computeOverallScore scores =
        some (round2 (scores.sum / scores.length)) ∧
      ∃ v, computeOverallScore scores = some v ∧ 1 ≤ v ∧ v ≤ 5) ∧
    (computeDimensionScore [5] = some 5 ∧
     computeDimensionScore (List.replicate 10 1) = some 1 ∧
     computeOverallScore [5, 1] = some 3) := by
  constructor
  · intro scores hne hb
    have hlen : 0 < scores.length := List.length_pos.mpr hne
    have hsum1 : (scores.length : ℚ) ≤ scores.sum :=
      length_le_sum_rat scores (fun x hx => (hb x hx).1)
    have hsum5 : scores.sum ≤ 5 * scores.length :=
      sum_le_five_length_rat scores (fun x hx => (hb x hx).2)
    have hlq : (0:ℚ) < (scores.length : ℚ) := by exact_mod_cast hlen
    have hm1 : 1 ≤ scores.sum / (scores.length : ℚ) := by
      rw [le_div_iff₀ hlq]
      linarith
    have hm5 : scores.sum / (scores.length : ℚ) ≤ 5 := by
      rw [div_le_iff₀ hlq]
      linarith
    have hr := round2_mem _ hm1 hm5
    have heq : computeOverallScore scores =
        some (round2 (scores.sum / scores.length)) := by
      unfold computeOverallScore
      rw [if_neg (by simp [hne])]
    exact ⟨heq, round2 (scores.sum / scores.length), heq, hr.1, hr.2⟩
  · refine ⟨?_, ?_, ?_⟩
    · norm_num [computeDimensionScore, round2, rhe]
    · norm_num [computeDimensionScore, List.sum_replicate, round2, rhe]
    · norm_num [computeOverallScore, round2, rhe]

/-- Witness for C4 at the concrete dimension scores [4, 1.25]. -/
theorem c4_witness :
    ∃ v, computeOverallScore [(4:ℚ), 5/4] = some v ∧ 1 ≤ v ∧ v ≤ 5 :=
  (c4_overall_mean.1 [4, 5/4] (by simp) (by norm_num)).2

instance : IsTotal AssessmentRecord
    (fun a b => a.created_at ≤ b.created_at) :=
  ⟨fun a b => Nat.le_total a.created_at b.created_at⟩

instance : IsTrans AssessmentRecord
    (fun a b => a.created_at ≤ b.created_at) :=
  ⟨fun _ _ _ hab hbc => Nat.le_trans hab hbc⟩

theorem load_history_true_eq (cid : String)
    (store : List AssessmentRecord) (h : cid ≠ "DEMO") :
    load_history true cid store =
      List.insertionSort (fun a b => a.created_at ≤ b.created_at)
        (store.filter (fun r => r.company_id == cid)) := by
  unfold load_history
  rw [if_neg (by simp [h])]

theorem filter_company_eq_nil (cid : String)
    (store : List AssessmentRecord)
    (hnone : ∀ r ∈ store, r.company_id ≠ cid) :
    store.filter (fun r => r.company_id == cid) = [] := by
  rw [List.filter_eq_nil_iff]
  intro a ha
  simp [hnone a ha]

/-- Claim C7: with persistence enabled and a non-demo identity, the
history-loading operation returns exactly the stored records of that
identity (a permutation of the store's matching records) ordered by
ascending creation timestamp, and returns the empty sequence — a
success value, not an error — when the identity has no records. -/
theorem c7_query_by_owner : ∀ (cid : String)
    (store : List AssessmentRecord), cid ≠ "DEMO" →
    List.Sorted (fun a b => a.created_at ≤ b.created_at)
      (load_history true cid store) ∧
    (load_history true cid store).Perm
      (store.filter (fun r => r.company_id == cid)) ∧
    ((∀ r ∈ store, r.company_id ≠ cid) →
      load_history true cid store = []) := by
  intro cid store hcid
  rw [load_history_true_eq cid store hcid]
  refine ⟨List.sorted_insertionSort _ _, List.perm_insertionSort _ _, ?_⟩
  intro hnone
  rw [filter_company_eq_nil cid store hnone]
  rfl

/-- Witness for C7 at a concrete three-record store: two records owned
by "ACME" (inserted out of timestamp order) and one by another owner. -/
theorem c7_witness :
    List.Sorted (fun a b => a.created_at ≤ b.created_at)
      (load_history true "ACME"
        [⟨"ACME", 3, [], 7⟩, ⟨"OTHER", 1, [], 1⟩, ⟨"ACME", 2, [], 4⟩]) ∧
    (load_history true "ACME"
        [⟨"ACME", 3, [], 7⟩, ⟨"OTHER", 1, [], 1⟩,
          ⟨"ACME", 2, [], 4⟩]).Perm
      ([⟨"ACME", 3, [], 7⟩, ⟨"OTHER", 1, [], 1⟩,
          ⟨"ACME", 2, [], 4⟩].filter
        (fun r => r.company_id == "ACME")) ∧
    ((∀ r ∈ [(⟨"ACME", 3, [], 7⟩ : AssessmentRecord),
        ⟨"OTHER", 1, [], 1⟩, ⟨"ACME", 2, [], 4⟩],
          r.company_id ≠ "ACME") →
      load_history true "ACME"
        [⟨"ACME", 3, [], 7⟩, ⟨"OTHER", 1, [], 1⟩,
          ⟨"ACME", 2, [], 4⟩] = []) :=
  c7_query_by_owner "ACME"
    [⟨"ACME", 3, [], 7⟩, ⟨"OTHER", 1, [], 1⟩, ⟨"ACME", 2, [], 4⟩]
    (by decide)

/-- Claim C8 counterexample: the history-loading operation returns the
same value, the empty list, both when persistence is disabled (even with
a matching record in the store) and when persistence is enabled but no
records exist, so its caller cannot distinguish the two states from the
result alone. -/
theorem c8_counterexample :
    load_history false "ACME" [⟨"ACME", 3, [], 0⟩] = [] ∧
    load_history true "ACME" [] = [] ∧
    load_history false "ACME" [⟨"ACME", 3, [], 0⟩] =
      load_history true "ACME" [] := by
  refine ⟨?_, ?_, ?_⟩ <;> simp [load_history]

/-- Claim C8 (amended): the two states are distinguished not by the
load result but by the rendering branch, which checks the persistence
flag before calling the loader: in every persistence-disabled
configuration (auth unconfigured, Supabase unconfigured, or both — any
state with `auth_enabled && supabase_enabled = false`) the history
section is absent entirely (empty output), while with persistence
enabled, a non-demo identity and no stored records it shows the
"No previous assessments" notice. -/
theorem c8_distinguished_by_flag : ∀ (auth supa : Bool) (cid : String)
    (store : List AssessmentRecord),
    ((auth && supa) = false → renderHistory auth supa cid store = "") ∧
    (cid ≠ "DEMO" → (∀ r ∈ store, r.company_id ≠ cid) →
      renderHistory true true cid store =
        "No previous assessments found for this company.") := by
  intro auth supa cid store
  constructor
  · intro hdis
    unfold renderHistory
    rw [hdis]
    simp
  · intro hcid hnone
    unfold renderHistory
    have hload : load_history (true && true) cid store = [] := by
      show load_history true cid store = []
      rw [load_history_true_eq cid store hcid,
        filter_company_eq_nil cid store hnone]
      rfl
    rw [if_pos (by simp [hcid]), if_pos hload]

/-- Witness for C8: concrete renderings for the auth-disabled and the
auth-enabled-but-Supabase-missing disabled configurations, and for the
enabled-with-no-history state. -/
theorem c8_witness :
    renderHistory false true "ACME" [] = "" ∧
    renderHistory true false "ACME" [] = "" ∧
    renderHistory true true "ACME" [⟨"OTHER", 1, [], 1⟩] =
      "No previous assessments found for this company." :=
  ⟨(c8_distinguished_by_flag false true "ACME" []).1 rfl,
   (c8_distinguished_by_flag true false "ACME" []).1 rfl,
   (c8_distinguished_by_flag true true "ACME" [⟨"OTHER", 1, [], 1⟩]).2
     (by decide) (by decide)⟩

/-- Claim C9: the save operation never modifies the in-memory current
scores: whatever the persistence flag, identity, timestamp and store
availability — success, no-op, or StoreUnavailable failure — the
dimension scores and the overall score of the resulting state equal
those of the input state. -/
theorem c9_save_preserves_scores : ∀ (pe : Bool) (cid : String)
    (now : ℕ) (avail : Bool) (st : AppState),
    (save_assessment pe cid now avail st).1.dimension_scores =
      st.dimension_scores ∧
    (save_assessment pe cid now avail st).1.overall = st.overall := by
  intro pe cid now avail st
  unfold save_assessment
  split_ifs <;> simp

/-- Witness for C9 at a concrete state with an unavailable store. -/
theorem c9_witness :
    (save_assessment true "ACME" 0 false
        ⟨[("Product", 4)], 4, []⟩).1.dimension_scores =
      [("Product", 4)] ∧
    (save_assessment true "ACME" 0 false
        ⟨[("Product", 4)], 4, []⟩).1.overall = 4 :=
  c9_save_preserves_scores true "ACME" 0 false ⟨[("Product", 4)], 4, []⟩

end DefenseRadar
